import Mathlib

/-!
Verification of the countdown-timer logic of `script.js` (INNOVISION 2K26
coming-soon page), embedded shallowly in Lean.

Instants are modelled as integers (milliseconds, as produced by
`Date.prototype.getTime`).  The JS method `calculateTimeRemaining` reads the
clock internally; here the current instant `now` is passed explicitly, so the
engine becomes the pure function `remaining(target, now)` of the design
documents.
-/

/-- The record returned by `CountdownTimer.calculateTimeRemaining`
(`script.js` lines 69–98): four time fields plus the expiration flag. -/
structure CountdownState where
  days : Nat
  hours : Nat
  minutes : Nat
  seconds : Nat
  isExpired : Bool
deriving DecidableEq

/-- Embedding of `CountdownTimer.calculateTimeRemaining` (`script.js` 69–98).
`timeRemaining = targetDate - now` in milliseconds; if non-positive the
clamped expired state is returned, otherwise `Math.floor` arithmetic on the
positive difference, which coincides with `Nat` division after `Int.toNat`. -/
def calculateTimeRemaining (targetDate now : Int) : CountdownState :=
  let timeRemaining : Int := targetDate - now
  if timeRemaining ≤ 0 then
    { days := 0, hours := 0, minutes := 0, seconds := 0, isExpired := true }
  else
    let totalSeconds : Nat := timeRemaining.toNat / 1000
    let days : Nat := totalSeconds / (24 * 60 * 60)
    let hours : Nat := totalSeconds % (24 * 60 * 60) / (60 * 60)
    let minutes : Nat := totalSeconds % (60 * 60) / 60
    let seconds : Nat := totalSeconds % 60
    { days := days, hours := hours, minutes := minutes, seconds := seconds,
      isExpired := false }

theorem calcTime_expired (target now : Int) (h : target - now ≤ 0) :
    calculateTimeRemaining target now =
      { days := 0, hours := 0, minutes := 0, seconds := 0, isExpired := true } := by
  simp [calculateTimeRemaining, h]

theorem calcTime_pos (target now : Int) (h : 0 < target - now) :
    calculateTimeRemaining target now =
      { days := (target - now).toNat / 1000 / 86400,
        hours := (target - now).toNat / 1000 % 86400 / 3600,
        minutes := (target - now).toNat / 1000 % 3600 / 60,
        seconds := (target - now).toNat / 1000 % 60,
        isExpired := false } := by
  simp [calculateTimeRemaining, not_le.mpr h]

theorem calcTime_reconstruct (t : Nat) :
    t / 86400 * 86400 + t % 86400 / 3600 * 3600 + t % 3600 / 60 * 60 + t % 60 = t := by
  omega

/-- C1: for `now < target` the engine reports a non-expired state whose fields
reconstruct the truncated second count exactly:
`days*86400 + hours*3600 + minutes*60 + seconds = ⌊(target - now)/1000⌋`. -/
theorem C1_remaining_reconstructs_seconds (target now : Int) (h : now < target) :
    (calculateTimeRemaining target now).isExpired = false ∧
    (calculateTimeRemaining target now).days * 86400 +
      (calculateTimeRemaining target now).hours * 3600 +
      (calculateTimeRemaining target now).minutes * 60 +
      (calculateTimeRemaining target now).seconds = (target - now).toNat / 1000 := by
  rw [calcTime_pos target now (by omega)]
  exact ⟨rfl, calcTime_reconstruct ((target - now).toNat / 1000)⟩

theorem C1_witness :
    ((0 : Int) < 90061000) ∧
    (calculateTimeRemaining 90061000 0).isExpired = false ∧
    (calculateTimeRemaining 90061000 0).days * 86400 +
      (calculateTimeRemaining 90061000 0).hours * 3600 +
      (calculateTimeRemaining 90061000 0).minutes * 60 +
      (calculateTimeRemaining 90061000 0).seconds = ((90061000 : Int) - 0).toNat / 1000 :=
  ⟨by decide, C1_remaining_reconstructs_seconds 90061000 0 (by decide)⟩

/-- C2: for `now ≥ target` the engine returns exactly the clamped state
`{days 0, hours 0, minutes 0, seconds 0, expired true}`. -/
theorem C2_expired_clamped (target now : Int) (h : target ≤ now) :
    calculateTimeRemaining target now =
      { days := 0, hours := 0, minutes := 0, seconds := 0, isExpired := true } :=
  calcTime_expired target now (by omega)

theorem C2_witness :
    ((0 : Int) ≤ 1000) ∧
    calculateTimeRemaining 0 1000 =
      { days := 0, hours := 0, minutes := 0, seconds := 0, isExpired := true } :=
  ⟨by decide, C2_expired_clamped 0 1000 (by decide)⟩

/-- C3 counterexample: with 500 ms remaining (`target = 500`, `now = 0`) the
engine returns a NON-expired state whose four fields are all zero, so the
represented duration is 0, not strictly positive, refuting the claimed
invariant at this concrete input. -/
theorem C3_counterexample :
    (calculateTimeRemaining 500 0).isExpired = false ∧
    (calculateTimeRemaining 500 0).days * 86400 +
      (calculateTimeRemaining 500 0).hours * 3600 +
      (calculateTimeRemaining 500 0).minutes * 60 +
      (calculateTimeRemaining 500 0).seconds = 0 := by
  decide

/-- C3 (amended): when `expired` is false the four fields represent the
truncated whole-second count — strictly positive whenever at least one full
second (1000 ms) remains, but zero when less than a second remains; when
`expired` is true all four fields are zero. -/
theorem C3_amended_invariant (target now : Int) :
    ((calculateTimeRemaining target now).isExpired = false →
      (calculateTimeRemaining target now).days * 86400 +
        (calculateTimeRemaining target now).hours * 3600 +
        (calculateTimeRemaining target now).minutes * 60 +
        (calculateTimeRemaining target now).seconds = (target - now).toNat / 1000 ∧
      (1000 ≤ target - now →
        0 < (calculateTimeRemaining target now).days * 86400 +
          (calculateTimeRemaining target now).hours * 3600 +
          (calculateTimeRemaining target now).minutes * 60 +
          (calculateTimeRemaining target now).seconds)) ∧
    ((calculateTimeRemaining target now).isExpired = true →
      calculateTimeRemaining target now =
        { days := 0, hours := 0, minutes := 0, seconds := 0, isExpired := true }) := by
  by_cases h : target - now ≤ 0
  · rw [calcTime_expired target now h]
    exact ⟨fun hfalse => by simp at hfalse, fun _ => rfl⟩
  · rw [calcTime_pos target now (by omega)]
    refine ⟨fun _ => ⟨calcTime_reconstruct _, fun h1000 => ?_⟩, fun htrue => by simp at htrue⟩
    rw [calcTime_reconstruct]
    have : 1 ≤ (target - now).toNat / 1000 := by omega
    omega

theorem C3_amended_witness :
    ((calculateTimeRemaining 2000 0).isExpired = false →
      (calculateTimeRemaining 2000 0).days * 86400 +
        (calculateTimeRemaining 2000 0).hours * 3600 +
        (calculateTimeRemaining 2000 0).minutes * 60 +
        (calculateTimeRemaining 2000 0).seconds = ((2000 : Int) - 0).toNat / 1000 ∧
      (1000 ≤ (2000 : Int) - 0 →
        0 < (calculateTimeRemaining 2000 0).days * 86400 +
          (calculateTimeRemaining 2000 0).hours * 3600 +
          (calculateTimeRemaining 2000 0).minutes * 60 +
          (calculateTimeRemaining 2000 0).seconds)) ∧
    ((calculateTimeRemaining 2000 0).isExpired = true →
      calculateTimeRemaining 2000 0 =
        { days := 0, hours := 0, minutes := 0, seconds := 0, isExpired := true }) :=
  C3_amended_invariant 2000 0

/-- C6: every non-expired result has `hours ≤ 23`, `minutes ≤ 59` and
`seconds ≤ 59` (the fields are naturals, so the lower bound 0 is inherent). -/
theorem C6_field_ranges (target now : Int)
    (h : (calculateTimeRemaining target now).isExpired = false) :
    (calculateTimeRemaining target now).hours ≤ 23 ∧
    (calculateTimeRemaining target now).minutes ≤ 59 ∧
    (calculateTimeRemaining target now).seconds ≤ 59 := by
  by_cases hle : target - now ≤ 0
  · rw [calcTime_expired target now hle] at h
    simp at h
  · rw [calcTime_pos target now (by omega)]
    refine ⟨?_, ?_, ?_⟩ <;> simp only [] <;> omega

theorem C6_witness :
    (calculateTimeRemaining 90061000 0).isExpired = false ∧
    ((calculateTimeRemaining 90061000 0).hours ≤ 23 ∧
     (calculateTimeRemaining 90061000 0).minutes ≤ 59 ∧
     (calculateTimeRemaining 90061000 0).seconds ≤ 59) :=
  ⟨by decide, C6_field_ranges 90061000 0 (by decide)⟩

/-!
Presenter model.  The DOM surface consists of the four numeric output slots
(`#days`, `#hours`, `#minutes`, `#seconds`), the optional status heading
(`.coming-soon h2`) and the optional notify button (`#notify-btn`); each is
`none` when `getElementById`/`querySelector` found nothing.  Assigning
`textContent` on a `null` element raises a `TypeError` in JS; the embedding
returns `Except.error`, carrying the DOM as mutated so far (DOM writes made
before the exception persist).  `setInterval`/`clearInterval` are modelled by
a scheduler holding the list of active interval handles; browsers hand out
strictly positive handle ids, so the fresh scheduler starts at id 1.
-/

/-- A present DOM element, reduced to its `textContent`. -/
structure Elem where
  textContent : String
deriving DecidableEq

/-- The `#notify-btn` element with the fields `handleExpiredEvent` touches. -/
structure NotifyBtn where
  disabled : Bool
  textContent : String
  opacity : String
  cursor : String
deriving DecidableEq

/-- The DOM surface used by `script.js`. -/
structure Dom where
  days : Option Elem
  hours : Option Elem
  minutes : Option Elem
  seconds : Option Elem
  comingSoon : Option Elem
  notifyBtn : Option NotifyBtn
deriving DecidableEq

/-- The `CountdownTimer` instance state: the fixed target and the
`timerInterval` field (`null` ↦ `none`). -/
structure Session where
  targetDate : Int
  timerInterval : Option Nat
deriving DecidableEq

/-- Host scheduler state: next interval handle to hand out and the handles of
currently active intervals. -/
structure Scheduler where
  nextId : Nat
  active : List Nat
deriving DecidableEq

/-- A scheduler with no active intervals, handing out ids from 1 as browsers
do (interval ids are strictly positive, hence truthy). -/
def freshScheduler : Scheduler := { nextId := 1, active := [] }

/-- The four numeric output slots. -/
inductive Slot
  | days
  | hours
  | minutes
  | seconds
deriving DecidableEq

/-- Observable presenter events: a `textContent` write to one of the four
numeric slots, or the run of the terminal `handleExpiredEvent` handling. -/
inductive Event
  | write (slot : Slot) (value : String)
  | expiredHandled
deriving DecidableEq

/-- Embedding of `String.prototype.padStart(targetLength, padChar)` for a
single-character pad: prepend copies of the pad until the target length is
reached (no-op when the string is already long enough). -/
def padStart (s : String) (targetLength : Nat) (pad : Char) : String :=
  String.mk (List.replicate (targetLength - s.length) pad ++ s.data)

/-- Embedding of `CountdownTimer.formatNumber` (`script.js` 105–107):
`String(num).padStart(2, '0')`. -/
def formatNumber (num : Nat) : String :=
  padStart (toString num) 2 '0'

/-- Embedding of `CountdownTimer.validateElements` (`script.js` 52–63):
returns whether the `console.error` diagnostic is emitted, i.e. whether some
required element is `null`.  It only reports; nothing is prevented. -/
def validateElements (dom : Dom) : Bool :=
  [dom.days, dom.hours, dom.minutes, dom.seconds].any fun el => el.isNone

/-- Embedding of `setInterval`: hands out the next handle and records it
active; returns the handle. -/
def setIntervalModel (sch : Scheduler) : Nat × Scheduler :=
  (sch.nextId, { nextId := sch.nextId + 1, active := sch.nextId :: sch.active })

/-- Embedding of `clearInterval h`: removes the handle from the active set. -/
def clearIntervalModel (sch : Scheduler) (h : Nat) : Scheduler :=
  { sch with active := sch.active.erase h }

/-- Embedding of `CountdownTimer.stop` (`script.js` 171–177):
`if (this.timerInterval) { clearInterval(...); this.timerInterval = null; }`.
The guard is JS truthiness: `null` and `0` are falsy (browser handles are
never 0, but the embedding keeps the literal test). -/
def stop (s : Session) (sch : Scheduler) : Session × Scheduler :=
  match s.timerInterval with
  | some h =>
      if h ≠ 0 then ({ s with timerInterval := none }, clearIntervalModel sch h)
      else (s, sch)
  | none => (s, sch)

/-- The four sequential `textContent` assignments of `updateDisplay`
(`script.js` 116–119), in source order.  A `null` element raises
(`Except.error`), keeping the writes already performed. -/
def writeSlots (t : CountdownState) (dom : Dom) :
    Except (Dom × List Event) (Dom × List Event) :=
  match dom.days with
  | none => .error (dom, [])
  | some _ =>
    let dom1 : Dom := { dom with days := some ⟨formatNumber t.days⟩ }
    let evs1 : List Event := [Event.write Slot.days (formatNumber t.days)]
    match dom1.hours with
    | none => .error (dom1, evs1)
    | some _ =>
      let dom2 : Dom := { dom1 with hours := some ⟨formatNumber t.hours⟩ }
      let evs2 : List Event := evs1 ++ [Event.write Slot.hours (formatNumber t.hours)]
      match dom2.minutes with
      | none => .error (dom2, evs2)
      | some _ =>
        let dom3 : Dom := { dom2 with minutes := some ⟨formatNumber t.minutes⟩ }
        let evs3 : List Event := evs2 ++ [Event.write Slot.minutes (formatNumber t.minutes)]
        match dom3.seconds with
        | none => .error (dom3, evs3)
        | some _ =>
          .ok ({ dom3 with seconds := some ⟨formatNumber t.seconds⟩ },
               evs3 ++ [Event.write Slot.seconds (formatNumber t.seconds)])

/-- Embedding of `CountdownTimer.handleExpiredEvent` (`script.js` 130–150):
stop the timer, then set the status heading and disable/re-label the notify
button when present (both guarded by `null` checks in the source). -/
def handleExpiredEvent (s : Session) (dom : Dom) (sch : Scheduler) :
    Session × Dom × Scheduler :=
  let s1 : Session := (stop s sch).1
  let sch1 : Scheduler := (stop s sch).2
  let dom1 : Dom :=
    match dom.comingSoon with
    | some _ => { dom with comingSoon := some ⟨"Event Started!"⟩ }
    | none => dom
  let dom2 : Dom :=
    match dom1.notifyBtn with
    | some _ =>
        { dom1 with notifyBtn := some { disabled := true, textContent := "Event Live",
                                        opacity := "0.6", cursor := "not-allowed" } }
    | none => dom1
  (s1, dom2, sch1)

/-- Embedding of `CountdownTimer.updateDisplay` (`script.js` 112–125): sample
the engine at `now`, write the four formatted fields into the slots (raising
on a missing slot), and only then run `handleExpiredEvent` if expired. -/
def updateDisplay (now : Int) (s : Session) (dom : Dom) (sch : Scheduler) :
    Except (Dom × List Event) (Session × Dom × Scheduler × List Event) :=
  let t := calculateTimeRemaining s.targetDate now
  match writeSlots t dom with
  | .error e => .error e
  | .ok (dom4, evs) =>
    if t.isExpired then
      let r := handleExpiredEvent s dom4 sch
      .ok (r.1, r.2.1, r.2.2, evs ++ [Event.expiredHandled])
    else
      .ok (s, dom4, sch, evs)

/-- Embedding of `CountdownTimer.start` (`script.js` 156–166): one immediate
`updateDisplay` (whose exception propagates out of `start`), then
`setInterval` stores a fresh handle in `timerInterval`. -/
def start (now : Int) (s : Session) (dom : Dom) (sch : Scheduler) :
    Except (Dom × List Event) (Session × Dom × Scheduler × List Event) :=
  match updateDisplay now s dom sch with
  | .error e => .error e
  | .ok (s1, dom1, sch1, evs) =>
    let p := setIntervalModel sch1
    .ok ({ s1 with timerInterval := some p.1 }, dom1, p.2, evs)

/-- Embedding of `CountdownTimer.reset` (`script.js` 182–185): `stop()` then
`start()`. -/
def reset (now : Int) (s : Session) (dom : Dom) (sch : Scheduler) :
    Except (Dom × List Event) (Session × Dom × Scheduler × List Event) :=
  let p := stop s sch
  start now p.1 dom p.2

/-- Runs one injected cadence tick (`() => this.updateDisplay()`) on the
result of a previous step, propagating an earlier exception. -/
def tickFrom (r : Except (Dom × List Event) (Session × Dom × Scheduler × List Event))
    (now : Int) : Except (Dom × List Event) (Session × Dom × Scheduler × List Event) :=
  match r with
  | .error e => .error e
  | .ok (s, dom, _sch, _) => updateDisplay now s dom _sch

theorem padStart_length (s : String) (n : Nat) (c : Char) :
    (padStart s n c).length = max n s.length := by
  simp only [padStart, String.length, String.mk]
  simp [List.length_append, List.length_replicate]
  omega

theorem formatNumber_zero : formatNumber 0 = "00" := rfl

/-- C7: `formatNumber` renders every natural number as a left-zero-padded
decimal string of width at least two, never truncating: the result is the
decimal representation with some zeros prepended, `5 ↦ "05"`, `123 ↦ "123"`. -/
theorem C7_formatNumber_pads :
    (∀ num : Nat, 2 ≤ (formatNumber num).length ∧
      ∃ k, (formatNumber num).data = List.replicate k '0' ++ (toString num).data) ∧
    formatNumber 5 = "05" ∧ formatNumber 123 = "123" := by
  refine ⟨fun num => ⟨?_, ⟨2 - (toString num).length, rfl⟩⟩, by decide, by decide⟩
  rw [show formatNumber num = padStart (toString num) 2 '0' from rfl, padStart_length]
  omega

theorem stop_of_none (s : Session) (sch : Scheduler) (h : s.timerInterval = none) :
    stop s sch = (s, sch) := by
  simp [stop, h]

/-- C8: `stop` is idempotent — applying it twice gives the same session and
scheduler as applying it once — and `stop` before any `start` (no handle
held) is a no-op. -/
theorem C8_stop_idempotent :
    (∀ (s : Session) (sch : Scheduler),
      stop (stop s sch).1 (stop s sch).2 = stop s sch) ∧
    (∀ (s : Session) (sch : Scheduler),
      s.timerInterval = none → stop s sch = (s, sch)) := by
  refine ⟨fun s sch => ?_, stop_of_none⟩
  match hti : s.timerInterval with
  | none => simp [stop, hti]
  | some h =>
    by_cases h0 : h = 0
    · simp [stop, hti, h0]
    · simp [stop, hti, h0]

/-- A session holding no timer handle, as after construction. -/
def sessionIdle : Session := { targetDate := 0, timerInterval := none }

theorem C8_witness :
    sessionIdle.timerInterval = none ∧
    stop sessionIdle freshScheduler = (sessionIdle, freshScheduler) :=
  ⟨rfl, C8_stop_idempotent.2 sessionIdle freshScheduler rfl⟩

/-- A DOM in which `getElementById('days')` returned `null` while the other
required slots are present. -/
def domMissingDays : Dom :=
  { days := none, hours := some ⟨""⟩, minutes := some ⟨""⟩, seconds := some ⟨""⟩,
    comingSoon := some ⟨"Coming Soon"⟩,
    notifyBtn := some { disabled := false, textContent := "Notify Me",
                        opacity := "1", cursor := "pointer" } }

/-- C4: at a DOM missing the `days` slot, `validateElements` does emit the
diagnostic, but `start` then raises (a `TypeError` from assigning
`textContent` on `null`) instead of continuing in a degraded no-op mode: the
exception escapes `start` before any interval is installed. -/
theorem C4_start_throws_on_missing_slot :
    validateElements domMissingDays = true ∧
    start 0 { targetDate := 1000000, timerInterval := none } domMissingDays
        freshScheduler = .error (domMissingDays, []) :=
  ⟨rfl, rfl⟩

/-- A DOM with all four required slots and both optional elements present. -/
def demoDom : Dom :=
  { days := some ⟨""⟩, hours := some ⟨""⟩, minutes := some ⟨""⟩, seconds := some ⟨""⟩,
    comingSoon := some ⟨"Coming Soon"⟩,
    notifyBtn := some { disabled := false, textContent := "Notify Me",
                        opacity := "1", cursor := "pointer" } }

/-- Run `start(); start(); stop()` on a fresh session against `demoDom`
(target well in the future), returning the final session and scheduler. -/
def doubleStartThenStop : Session × Scheduler :=
  match start 0 { targetDate := 10000, timerInterval := none } demoDom freshScheduler with
  | .error _ => ({ targetDate := 10000, timerInterval := none }, freshScheduler)
  | .ok (s1, dom1, sch1, _) =>
    match start 0 s1 dom1 sch1 with
    | .error _ => (s1, sch1)
    | .ok (s2, _, sch2, _) => stop s2 sch2

/-- C9 counterexample: after `start(); start(); stop()` the session's handle
field is cleared, yet interval handle 1 — acquired by the first `start` and
overwritten by the second — is still active when `stop` completes, so its
ticks keep firing. -/
theorem C9_counterexample :
    doubleStartThenStop.1.timerInterval = none ∧
    doubleStartThenStop.2.active = [1] := by
  constructor
  · rfl
  · rfl

/-- The scheduler is in sync with the session: the active intervals are
exactly the session's held handle, held handles are truthy (nonzero), and the
scheduler hands out positive ids.  It holds for a fresh session/scheduler and
is preserved by every operation as long as `start` is only invoked with no
handle held (the discipline `stop`/`reset` maintain). -/
def InSync (s : Session) (sch : Scheduler) : Prop :=
  sch.active = s.timerInterval.toList ∧
  (∀ h, s.timerInterval = some h → h ≠ 0) ∧
  0 < sch.nextId

theorem stop_inSync (s : Session) (sch : Scheduler) (hsync : InSync s sch) :
    (stop s sch).1.timerInterval = none ∧ (stop s sch).2.active = [] ∧
    InSync (stop s sch).1 (stop s sch).2 := by
  obtain ⟨hact, hnz, hpos⟩ := hsync
  match hti : s.timerInterval with
  | none =>
    rw [stop_of_none s sch hti]
    have hempty : sch.active = [] := by rw [hact, hti]; rfl
    exact ⟨hti, hempty, hact, hnz, hpos⟩
  | some h =>
    have h0 : h ≠ 0 := hnz h hti
    have hstop : stop s sch =
        ({ s with timerInterval := none }, clearIntervalModel sch h) := by
      simp [stop, hti, h0]
    rw [hstop]
    have hempty : (clearIntervalModel sch h).active = [] := by
      simp [clearIntervalModel, hact, hti]
    refine ⟨rfl, hempty, hempty, ?_, hpos⟩
    intro h' hh'
    exact absurd hh' (by simp)

theorem handleExpiredEvent_fst (s : Session) (dom : Dom) (sch : Scheduler) :
    (handleExpiredEvent s dom sch).1 = (stop s sch).1 := rfl

theorem handleExpiredEvent_sched (s : Session) (dom : Dom) (sch : Scheduler) :
    (handleExpiredEvent s dom sch).2.2 = (stop s sch).2 := rfl

theorem updateDisplay_ok_cases {now : Int} {s : Session} {dom : Dom}
    {sch : Scheduler} {s' : Session} {dom' : Dom} {sch' : Scheduler}
    {evs : List Event}
    (h : updateDisplay now s dom sch = .ok (s', dom', sch', evs)) :
    (s' = s ∧ sch' = sch) ∨ (s' = (stop s sch).1 ∧ sch' = (stop s sch).2) := by
  simp only [updateDisplay] at h
  cases hw : writeSlots (calculateTimeRemaining s.targetDate now) dom with
  | error e => rw [hw] at h; exact absurd h (by simp)
  | ok p =>
    obtain ⟨dom4, evs0⟩ := p
    simp only [hw] at h
    by_cases hexp : (calculateTimeRemaining s.targetDate now).isExpired = true
    · rw [if_pos hexp] at h
      simp only [Except.ok.injEq, Prod.mk.injEq] at h
      exact Or.inr ⟨h.1.symm.trans (handleExpiredEvent_fst s dom4 sch),
        h.2.2.1.symm.trans (handleExpiredEvent_sched s dom4 sch)⟩
    · rw [if_neg hexp] at h
      simp only [Except.ok.injEq, Prod.mk.injEq] at h
      exact Or.inl ⟨h.1.symm, h.2.2.1.symm⟩

theorem start_ok_cases {now : Int} {s : Session} {dom : Dom} {sch : Scheduler}
    {s' : Session} {dom' : Dom} {sch' : Scheduler} {evs : List Event}
    (h : start now s dom sch = .ok (s', dom', sch', evs)) :
    ∃ s1 sch1,
      ((s1 = s ∧ sch1 = sch) ∨ (s1 = (stop s sch).1 ∧ sch1 = (stop s sch).2)) ∧
      s' = { s1 with timerInterval := some sch1.nextId } ∧
      sch' = { nextId := sch1.nextId + 1, active := sch1.nextId :: sch1.active } := by
  simp only [start] at h
  cases hu : updateDisplay now s dom sch with
  | error e => rw [hu] at h; exact absurd h (by simp)
  | ok q =>
    obtain ⟨s1, dom1, sch1, evs1⟩ := q
    rw [hu] at h
    simp only [setIntervalModel, Except.ok.injEq, Prod.mk.injEq] at h
    exact ⟨s1, sch1, updateDisplay_ok_cases hu, h.1.symm, h.2.2.1.symm⟩

/-- C9 (amended): along disciplined operation sequences — `start` invoked
only when no handle is held, which is what `stop`/`reset` maintain — the
in-sync invariant holds, and when `stop` completes no interval handle
acquired by the session remains active (so no further ticks fire).  An
undisciplined double `start` orphans the first handle (see the
counterexample). -/
theorem C9_amended_stop_releases_all :
    (∀ (s : Session) (sch : Scheduler), InSync s sch →
      (stop s sch).1.timerInterval = none ∧ (stop s sch).2.active = [] ∧
      InSync (stop s sch).1 (stop s sch).2) ∧
    (∀ (now : Int) (s : Session) (dom : Dom) (sch : Scheduler)
        (s' : Session) (dom' : Dom) (sch' : Scheduler) (evs : List Event),
      InSync s sch → updateDisplay now s dom sch = .ok (s', dom', sch', evs) →
      InSync s' sch') ∧
    (∀ (now : Int) (s : Session) (dom : Dom) (sch : Scheduler)
        (s' : Session) (dom' : Dom) (sch' : Scheduler) (evs : List Event),
      s.timerInterval = none → InSync s sch →
      start now s dom sch = .ok (s', dom', sch', evs) → InSync s' sch') := by
  refine ⟨stop_inSync, ?_, ?_⟩
  · intro now s dom sch s' dom' sch' evs hsync h
    rcases updateDisplay_ok_cases h with ⟨hs, hsch⟩ | ⟨hs, hsch⟩
    · rw [hs, hsch]; exact hsync
    · rw [hs, hsch]; exact (stop_inSync s sch hsync).2.2
  · intro now s dom sch s' dom' sch' evs hnone hsync h
    obtain ⟨s1, sch1, hcase, hs', hsch'⟩ := start_ok_cases h
    have h11 : s1 = s ∧ sch1 = sch := by
      rcases hcase with hc | hc
      · exact hc
      · rw [stop_of_none s sch hnone] at hc; exact hc
    obtain ⟨hact, _hnz, hpos⟩ := hsync
    rw [hs', hsch', h11.1, h11.2]
    refine ⟨?_, ?_, ?_⟩
    · simp only [hact, hnone, Option.toList]
    · intro h' hh'
      simp only [Option.some.injEq] at hh'
      omega
    · simp

theorem inSync_fresh : InSync sessionIdle freshScheduler := by
  refine ⟨rfl, ?_, ?_⟩
  · intro h hh
    exact absurd hh (by simp [sessionIdle])
  · exact Nat.one_pos

theorem C9_amended_witness :
    (stop sessionIdle freshScheduler).1.timerInterval = none ∧
    (stop sessionIdle freshScheduler).2.active = [] ∧
    InSync (stop sessionIdle freshScheduler).1 (stop sessionIdle freshScheduler).2 :=
  C9_amended_stop_releases_all.1 sessionIdle freshScheduler inSync_fresh

/-- The four writes an expired tick performs, in source order. -/
def zeroWriteEvents : List Event :=
  [Event.write Slot.days "00", Event.write Slot.hours "00",
   Event.write Slot.minutes "00", Event.write Slot.seconds "00"]

/-- The DOM after an expired tick: zeros in the four slots, terminal status
text and disabled button where those optional elements are present. -/
def expiredRender (dom : Dom) : Dom :=
  { days := some ⟨"00"⟩, hours := some ⟨"00"⟩, minutes := some ⟨"00"⟩,
    seconds := some ⟨"00"⟩,
    comingSoon := match dom.comingSoon with
      | some _ => some ⟨"Event Started!"⟩
      | none => none,
    notifyBtn := match dom.notifyBtn with
      | some _ => some { disabled := true, textContent := "Event Live",
                         opacity := "0.6", cursor := "not-allowed" }
      | none => none }

theorem updateDisplay_expired (now : Int) (s : Session) (dom : Dom)
    (sch : Scheduler) (e1 e2 e3 e4 : Elem)
    (hd : dom.days = some e1) (hh : dom.hours = some e2)
    (hm : dom.minutes = some e3) (hs : dom.seconds = some e4)
    (hexp : s.targetDate ≤ now) :
    updateDisplay now s dom sch =
      .ok ((stop s sch).1, expiredRender dom, (stop s sch).2,
           zeroWriteEvents ++ [Event.expiredHandled]) := by
  obtain ⟨d, ho, mi, se, cs, nb⟩ := dom
  simp only [] at hd hh hm hs
  subst hd hh hm hs
  have ht : calculateTimeRemaining s.targetDate now =
      { days := 0, hours := 0, minutes := 0, seconds := 0, isExpired := true } :=
    calcTime_expired _ _ (by omega)
  cases cs <;> cases nb <;>
    simp [updateDisplay, writeSlots, ht, formatNumber_zero, handleExpiredEvent,
      expiredRender, zeroWriteEvents]

/-- C10: on a tick sampling an expired state (all four slots present), the
presenter first performs the four `"00"` writes — they precede
`expiredHandled` in the event trace — and only then the terminal handling;
the final display holds zeros in all four slots. -/
theorem C10_zeros_written_before_terminal (now : Int) (s : Session) (dom : Dom)
    (sch : Scheduler) (e1 e2 e3 e4 : Elem)
    (hd : dom.days = some e1) (hh : dom.hours = some e2)
    (hm : dom.minutes = some e3) (hs : dom.seconds = some e4)
    (hexp : s.targetDate ≤ now) :
    updateDisplay now s dom sch =
      .ok ((stop s sch).1, expiredRender dom, (stop s sch).2,
           zeroWriteEvents ++ [Event.expiredHandled]) ∧
    (expiredRender dom).days = some ⟨"00"⟩ ∧
    (expiredRender dom).hours = some ⟨"00"⟩ ∧
    (expiredRender dom).minutes = some ⟨"00"⟩ ∧
    (expiredRender dom).seconds = some ⟨"00"⟩ :=
  ⟨updateDisplay_expired now s dom sch e1 e2 e3 e4 hd hh hm hs hexp,
   rfl, rfl, rfl, rfl⟩

/-- The DOM after terminal expiry handling with every element present. -/
def terminalDom : Dom :=
  { days := some ⟨"00"⟩, hours := some ⟨"00"⟩, minutes := some ⟨"00"⟩,
    seconds := some ⟨"00"⟩, comingSoon := some ⟨"Event Started!"⟩,
    notifyBtn := some { disabled := true, textContent := "Event Live",
                        opacity := "0.6", cursor := "not-allowed" } }

theorem C10_witness :
    updateDisplay 0 { targetDate := 0, timerInterval := some 1 } demoDom
        { nextId := 2, active := [1] } =
      .ok ((stop { targetDate := 0, timerInterval := some 1 }
              { nextId := 2, active := [1] }).1,
           expiredRender demoDom,
           (stop { targetDate := 0, timerInterval := some 1 }
              { nextId := 2, active := [1] }).2,
           zeroWriteEvents ++ [Event.expiredHandled]) ∧
    (expiredRender demoDom).days = some ⟨"00"⟩ ∧
    (expiredRender demoDom).hours = some ⟨"00"⟩ ∧
    (expiredRender demoDom).minutes = some ⟨"00"⟩ ∧
    (expiredRender demoDom).seconds = some ⟨"00"⟩ :=
  C10_zeros_written_before_terminal 0 _ demoDom _ ⟨""⟩ ⟨""⟩ ⟨""⟩ ⟨""⟩
    rfl rfl rfl rfl (by decide)

/-- C5 (amended): once a session is in the post-expiry state (handle cleared,
slots showing `"00"`), an artificially injected tick still performs the four
slot writes, but they are idempotent `"00"` overwrites: the session, the
scheduler and the contents of the four numeric slots are all unchanged, and
no scheduler-driven tick can fire since the interval was cleared. -/
theorem C5_amended_injected_tick_idempotent (s : Session) (dom : Dom)
    (sch : Scheduler) (nowLater : Int)
    (hTimer : s.timerInterval = none)
    (hd : dom.days = some ⟨"00"⟩) (hh : dom.hours = some ⟨"00"⟩)
    (hm : dom.minutes = some ⟨"00"⟩) (hs : dom.seconds = some ⟨"00"⟩)
    (hexp : s.targetDate ≤ nowLater) :
    updateDisplay nowLater s dom sch =
      .ok (s, expiredRender dom, sch, zeroWriteEvents ++ [Event.expiredHandled]) ∧
    (expiredRender dom).days = dom.days ∧
    (expiredRender dom).hours = dom.hours ∧
    (expiredRender dom).minutes = dom.minutes ∧
    (expiredRender dom).seconds = dom.seconds := by
  have hupd := updateDisplay_expired nowLater s dom sch ⟨"00"⟩ ⟨"00"⟩ ⟨"00"⟩ ⟨"00"⟩
    hd hh hm hs hexp
  rw [stop_of_none s sch hTimer] at hupd
  refine ⟨hupd, ?_, ?_, ?_, ?_⟩
  · rw [hd]; exact rfl
  · rw [hh]; exact rfl
  · rw [hm]; exact rfl
  · rw [hs]; exact rfl

theorem C5_amended_witness :
    updateDisplay 1000 { targetDate := 0, timerInterval := none } terminalDom
        { nextId := 2, active := [] } =
      .ok ({ targetDate := 0, timerInterval := none }, expiredRender terminalDom,
           { nextId := 2, active := [] }, zeroWriteEvents ++ [Event.expiredHandled]) ∧
    (expiredRender terminalDom).days = terminalDom.days ∧
    (expiredRender terminalDom).hours = terminalDom.hours ∧
    (expiredRender terminalDom).minutes = terminalDom.minutes ∧
    (expiredRender terminalDom).seconds = terminalDom.seconds :=
  C5_amended_injected_tick_idempotent { targetDate := 0, timerInterval := none }
    terminalDom { nextId := 2, active := [] } 1000 rfl rfl rfl rfl rfl (by decide)

/-- A session started 1 s before its target against `demoDom`. -/
def runStart : Except (Dom × List Event) (Session × Dom × Scheduler × List Event) :=
  start (-1000) { targetDate := 0, timerInterval := none } demoDom freshScheduler

/-- The cadence tick at the target instant: the first expired sample, which
runs the terminal handling and clears the interval. -/
def runExpiredTick : Except (Dom × List Event) (Session × Dom × Scheduler × List Event) :=
  tickFrom runStart 0

/-- A tick injected one second after the session reached the Expired state. -/
def runInjectedTick : Except (Dom × List Event) (Session × Dom × Scheduler × List Event) :=
  tickFrom runExpiredTick 1000

/-- C5 counterexample: the session reaches Expired at `runExpiredTick`
(terminal handling ran, interval handle cleared), yet the injected tick
`runInjectedTick` still performs the four slot writes — its event trace
contains the `"00"` write to every numeric slot — refuting the claim that no
further write to the four slots occurs after Expired. -/
theorem C5_counterexample :
    runExpiredTick = .ok ({ targetDate := 0, timerInterval := none }, terminalDom,
      { nextId := 2, active := [] }, zeroWriteEvents ++ [Event.expiredHandled]) ∧
    runInjectedTick = .ok ({ targetDate := 0, timerInterval := none }, terminalDom,
      { nextId := 2, active := [] }, zeroWriteEvents ++ [Event.expiredHandled]) ∧
    zeroWriteEvents ≠ [] :=
  ⟨rfl, rfl, by decide⟩
